import Mathlib

/-!
# CreatorStudio — shallow embedding of the orchestration pipeline

This file embeds the core logic of the CreatorStudio repository:

* `src/services/geminiService.ts` — `parseBase64`, `withRetry`,
  `generateVisualPrompts`, `generateImage`;
* the types module — `PlatformKey`, `ImageState`, `PlatformConfig`, `PLATFORMS`,
  `VisualPrompts`;
* the application component (appended to `src/components/ImageCard.tsx`) —
  `updateImageState`, `handleGenerateAll`, `triggerImageGeneration`,
  `handleRegenerateSingle`.

The generative backend is modelled as an oracle: each attempt of a wrapped
operation is given the response of the backend for that attempt (either a thrown
JavaScript error or a parsed response value).  JSON parsing of the prompt
response (`JSON.parse`) is likewise an oracle parameter.  UI-only state
(`isAnalyzing`, `isZipping`, filters, lightbox) is outside the embedded core.

React state updates are merges of partial records
(`setImages(prev => ({ ...prev, [key]: { ...prev[key], ...newState } }))`);
the partial record of each call site is embedded as the corresponding explicit
record update (`resetUpdate`, `loadingUpdate`, `successUpdate`, `errorUpdate`).
-/

/-- Field `status` of an `ImageState`: `idle | loading | success | error`. -/
inductive Status where
  | idle
  | loading
  | success
  | error
deriving DecidableEq, Repr

/-- Model of `ImageState` from the types module: optional fields are
`Option`s, a JavaScript `undefined` being `none`. -/
structure ImageState where
  status : Status
  imageUrl : Option String
  prompt : Option String
  errorMsg : Option String
deriving DecidableEq, Repr

/-- Model of `PlatformKey`: `linkedin | twitter | instagram | blog`. -/
inductive PlatformKey where
  | linkedin
  | twitter
  | instagram
  | blog
deriving DecidableEq, Repr

/-- The two aspect-ratio tokens accepted by the backend: wide (16:9) or square (1:1). -/
inductive AspectRatio where
  | r16x9
  | r1x1
deriving DecidableEq, Repr

/-- Model of `PlatformConfig` from the types module. -/
structure PlatformConfig where
  key : PlatformKey
  label : String
  aspectRatioLabel : String
  apiAspectRatio : AspectRatio
  description : String
deriving DecidableEq, Repr

/-- The fixed `PLATFORMS` table from the types module, in source order. -/
def PLATFORMS : List PlatformConfig :=
  [ { key := PlatformKey.linkedin,
      label := "LinkedIn Cover",
      aspectRatioLabel := "3:1 (Generated as 16:9)",
      apiAspectRatio := AspectRatio.r16x9,
      description := "Safe zone: Subject in right third. Bottom-left blocked." },
    { key := PlatformKey.twitter,
      label := "X / Twitter Header",
      aspectRatioLabel := "3:1 (Generated as 16:9)",
      apiAspectRatio := AspectRatio.r16x9,
      description := "Focus centered/right. Bottom-left overlap." },
    { key := PlatformKey.instagram,
      label := "Instagram Post",
      aspectRatioLabel := "1:1",
      apiAspectRatio := AspectRatio.r1x1,
      description := "Centered composition. Square format." },
    { key := PlatformKey.blog,
      label := "Blog Header",
      aspectRatioLabel := "16:9",
      apiAspectRatio := AspectRatio.r16x9,
      description := "Cinematic wide shot. Text-safe bottom area." } ]

/-- The per-platform prompt map inside `VisualPrompts` (fields
`linkedin`, `twitter`, `instagram`, `blog` of `platforms`). -/
structure PlatformPromptMap where
  linkedin : String
  twitter : String
  instagram : String
  blog : String
deriving DecidableEq, Repr

/-- Indexing `visualPrompts.platforms[p.key]`. -/
def PlatformPromptMap.get (m : PlatformPromptMap) : PlatformKey → String
  | PlatformKey.linkedin => m.linkedin
  | PlatformKey.twitter => m.twitter
  | PlatformKey.instagram => m.instagram
  | PlatformKey.blog => m.blog

/-- Model of `VisualPrompts` from the types module. -/
structure VisualPrompts where
  visualStyleSeed : String
  platforms : PlatformPromptMap
deriving DecidableEq, Repr

/-- The `Record<PlatformKey, ImageState>` held in the `images` React state. -/
structure Images where
  linkedin : ImageState
  twitter : ImageState
  instagram : ImageState
  blog : ImageState
deriving DecidableEq, Repr

/-- Reading `images[key]`. -/
def Images.get (s : Images) : PlatformKey → ImageState
  | PlatformKey.linkedin => s.linkedin
  | PlatformKey.twitter => s.twitter
  | PlatformKey.instagram => s.instagram
  | PlatformKey.blog => s.blog

/-- Model of `updateImageState(key, newState)`: replace the record at `key` by the merge
of the old record with the partial update.  The partial update of each call
site is passed as the explicit merge function `f`. -/
def updateImageState (s : Images) (key : PlatformKey) (f : ImageState → ImageState) : Images :=
  match key with
  | PlatformKey.linkedin => { s with linkedin := f s.linkedin }
  | PlatformKey.twitter => { s with twitter := f s.twitter }
  | PlatformKey.instagram => { s with instagram := f s.instagram }
  | PlatformKey.blog => { s with blog := f s.blog }

/-- Call-site partial update setting status to idle and errorMsg to undefined:
`imageUrl` and `prompt` are untouched by the merge. -/
def resetUpdate (st : ImageState) : ImageState :=
  { st with status := Status.idle, errorMsg := none }

/-- Call-site partial update setting status to loading and the prompt. -/
def loadingUpdate (prompt : String) (st : ImageState) : ImageState :=
  { st with status := Status.loading, prompt := some prompt }

/-- Call-site partial update setting status to success and the imageUrl. -/
def successUpdate (url : String) (st : ImageState) : ImageState :=
  { st with status := Status.success, imageUrl := some url }

/-- Call-site partial update setting status to error and the errorMsg. -/
def errorUpdate (msg : String) (st : ImageState) : ImageState :=
  { st with status := Status.error, errorMsg := some msg }

/-- The initial `useState` value: every platform starts as idle. -/
def initImages : Images :=
  { linkedin := { status := Status.idle, imageUrl := none, prompt := none, errorMsg := none },
    twitter := { status := Status.idle, imageUrl := none, prompt := none, errorMsg := none },
    instagram := { status := Status.idle, imageUrl := none, prompt := none, errorMsg := none },
    blog := { status := Status.idle, imageUrl := none, prompt := none, errorMsg := none } }

/-! ## JavaScript error values and the quota classifier -/

/-- A JavaScript value appearing in an error field: a number or a string
(the classifier compares with `===`, so the shape matters). -/
inductive JsValue where
  | num (n : Int)
  | str (s : String)
deriving DecidableEq, Repr

/-- The nested `error.error` object probed by `withRetry`. -/
structure JsErrorInner where
  code : Option JsValue
deriving DecidableEq, Repr

/-- A thrown JavaScript error, restricted to the fields `withRetry` inspects
(`status`, `code`, `message`, `error.code`); an absent field is `none`. -/
structure JsError where
  status : Option JsValue
  code : Option JsValue
  message : Option String
  error : Option JsErrorInner
deriving DecidableEq, Repr

/-- A `new Error(msg)` value: only `message` is set. -/
def mkMessageError (msg : String) : JsError :=
  { status := none, code := none, message := some msg, error := none }

/-- Whether `pat` is a prefix of some suffix of the character list —
substring containment for `String.prototype.includes`. -/
def includesAux (pat : List Char) : List Char → Bool
  | [] => pat.isEmpty
  | c :: rest => pat.isPrefixOf (c :: rest) || includesAux pat rest

/-- JavaScript `s.includes(pat)`. -/
def strIncludes (s pat : String) : Bool :=
  includesAux pat.toList s.toList

/-- The check `error?.message?.includes(pat)` with optional chaining:
`false` when `message` is absent. -/
def messageIncludes (e : JsError) (pat : String) : Bool :=
  match e.message with
  | some m => strIncludes m pat
  | none => false

/-- The `isQuotaError` classification inside `withRetry`, field by field. -/
def isQuotaError (e : JsError) : Bool :=
  e.status == some (JsValue.num 429) ||
  e.code == some (JsValue.num 429) ||
  messageIncludes e "429" ||
  messageIncludes e "quota" ||
  messageIncludes e "RESOURCE_EXHAUSTED" ||
  e.status == some (JsValue.str "RESOURCE_EXHAUSTED") ||
  (match e.error with
   | some inner => inner.code == some (JsValue.num 429)
   | none => false)

/-! ## `withRetry` -/

/-- Observable outcome of a `withRetry` run: the returned value or thrown
error (`Except.error none` is a thrown `undefined`, possible only when
`retries = 0`), the number of times the operation was invoked, and the
backoff delays awaited, in order. -/
structure RetryOutcome (T : Type) where
  result : Except (Option JsError) T
  attempts : Nat
  waits : List Nat
deriving Repr

/-- The `for (let i = 0; i < retries; i++)` loop of `withRetry`.  The
operation is an oracle giving the result of its `i`-th invocation.  The
loop condition `i < retries` is carried as the structurally decreasing
count `fuel = retries - i` of remaining iterations (`fuel = 0` exactly
when `i ≥ retries`), so that the definition computes by structural
recursion. -/
def withRetryLoop {T : Type} (op : Nat → Except JsError T) (retries initialDelay : Nat) :
    (fuel i attempts : Nat) → (waits : List Nat) → (lastError : Option JsError) → RetryOutcome T
  | 0, _, attempts, waits, lastError => ⟨Except.error lastError, attempts, waits⟩
  | fuel + 1, i, attempts, waits, _ =>
    match op i with
    | Except.ok v => ⟨Except.ok v, attempts + 1, waits⟩
    | Except.error e =>
      if isQuotaError e && decide (i < retries - 1) then
        withRetryLoop op retries initialDelay fuel (i + 1) (attempts + 1)
          (waits ++ [initialDelay * 2 ^ i]) (some e)
      else
        ⟨Except.error (some e), attempts + 1, waits⟩

/-- Model of `withRetry(operation, retries, initialDelay)` (source defaults:
`retries = 3`, `initialDelay = 2000`): run the loop from `i = 0` with
`retries` remaining iterations. -/
def withRetry {T : Type} (op : Nat → Except JsError T) (retries initialDelay : Nat) :
    RetryOutcome T :=
  withRetryLoop op retries initialDelay retries 0 0 [] none

/-! ## `parseBase64` and request construction -/

/-- A character that JavaScript regex `.` (without the `s` flag) can match:
anything but a line terminator. -/
def isDotChar (c : Char) : Bool :=
  c ≠ '\n' && c ≠ '\r' && c ≠ '\u2028' && c ≠ '\u2029'

/-- The literal `;base64,` separator of the `parseBase64` regex. -/
def base64Sep : List Char := ";base64,".toList

/-- Greedy split for `^data:(.+);base64,(.+)$` on the text after `data:`:
the first `(.+)` is greedy, so the split is at the LAST occurrence of
`;base64,` that leaves both capture groups non-empty. -/
def greedySplit (cs : List Char) : Option (List Char × List Char) :=
  (List.range (cs.length + 1)).reverse.findSome? (fun p =>
    let a := cs.take p
    let rest := cs.drop p
    if base64Sep.isPrefixOf rest then
      let b := rest.drop base64Sep.length
      if a ≠ [] && b ≠ [] then some (a, b) else none
    else none)

/-- The literal data-scheme characters opening the `parseBase64` regex. -/
def schemeChars : List Char := "data:".toList

/-- Model of `parseBase64`: match `base64String` against the regular
expression `/^data:(.+);base64,(.+)$/`;
`null` (here `none`) when there is no match, otherwise
`{ mimeType: match[1], data: match[2] }`.  `.` cannot cross a line
terminator, and the anchors force the whole string to be consumed, so a
line terminator anywhere after `data:` defeats the match. -/
def parseBase64 (base64String : String) : Option (String × String) :=
  let cs := base64String.toList
  if schemeChars.isPrefixOf cs then
    let rest := cs.drop schemeChars.length
    if rest.all isDotChar then
      match greedySplit rest with
      | some (a, b) => some (String.mk a, String.mk b)
      | none => none
    else none
  else none

/-- A part of the request `contents`: the text part or an inlined image. -/
inductive RequestPart where
  | text (s : String)
  | inlineData (mimeType data : String)
deriving DecidableEq, Repr

/-- JavaScript truthiness of an optional string: absent and `""` are falsy. -/
def jsTruthyStr : Option String → Bool
  | none => false
  | some s => s ≠ ""

/-- JavaScript `x || undefined` on an optional string. -/
def orUndefined (o : Option String) : Option String :=
  if jsTruthyStr o then o else none

/-- The `parts` array built identically by `generateVisualPrompts` and
`generateImage`: the text part, then — when the optional image string is
truthy and `parseBase64` matches — the inlined image part; a malformed
image string is silently dropped. -/
def buildParts (textContent : String) (imageBase64 : Option String) : List RequestPart :=
  match imageBase64 with
  | none => [RequestPart.text textContent]
  | some r =>
    if r ≠ "" then
      match parseBase64 r with
      | some (m, d) => [RequestPart.text textContent, RequestPart.inlineData m d]
      | none => [RequestPart.text textContent]
    else [RequestPart.text textContent]

/-! ## Backend adapter operations -/

/-- The `inlineData` object of a response part. -/
structure InlineData where
  mimeType : String
  data : String
deriving DecidableEq, Repr

/-- A response content part, restricted to the field `generateImage` reads. -/
structure ResponsePart where
  inlineData : Option InlineData
deriving DecidableEq, Repr

/-- The scan `for (const part of responseParts)` in `generateImage`: the
first part having `inlineData` with truthy (non-empty) `data`. -/
def findInlineImage : List ResponsePart → Option InlineData
  | [] => none
  | p :: rest =>
    match p.inlineData with
    | some d => if d.data ≠ "" then some d else findInlineImage rest
    | none => findInlineImage rest

/-- One attempt of the operation wrapped by `withRetry` in `generateImage`.
The oracle gives either the error thrown by the network call or
`response.candidates?.[0]?.content?.parts` (`none` when that chain is
undefined).  A found image is returned as the data URI
`data:<mime>;base64,<data>`; otherwise a `new Error(...)` is thrown. -/
def generateImageOnce : Except JsError (Option (List ResponsePart)) → Except JsError String
  | Except.error e => Except.error e
  | Except.ok none => Except.error (mkMessageError "No content parts returned")
  | Except.ok (some parts) =>
    match findInlineImage parts with
    | some d => Except.ok ("data:" ++ d.mimeType ++ ";base64," ++ d.data)
    | none => Except.error (mkMessageError "No image data found in response")

/-- The image request: the built `parts` plus the `imageConfig.aspectRatio`. -/
structure ImageRequest where
  parts : List RequestPart
  aspectRatio : AspectRatio
deriving DecidableEq, Repr

/-- Model of `generateImage(prompt, aspectRatio, referenceImageBase64)`: builds the
request and runs the attempt oracle under `withRetry` with the source
defaults (3 attempts, 2000 ms initial delay). -/
def generateImage (prompt : String) (aspectRatio : AspectRatio)
    (referenceImageBase64 : Option String)
    (backend : Nat → Except JsError (Option (List ResponsePart))) :
    ImageRequest × RetryOutcome String :=
  ({ parts := buildParts prompt referenceImageBase64, aspectRatio := aspectRatio },
   withRetry (fun i => generateImageOnce (backend i)) 3 2000)

/-- One attempt of the operation wrapped by `withRetry` in
`generateVisualPrompts`.  The oracle gives the thrown error or
`response.text` (an absent or empty text is falsy and raises
`new Error("No text returned from Gemini")`); `parseJson` is the
`JSON.parse(text) as VisualPrompts` oracle, which may itself throw. -/
def generateVisualPromptsOnce (parseJson : String → Except JsError VisualPrompts) :
    Except JsError (Option String) → Except JsError VisualPrompts
  | Except.error e => Except.error e
  | Except.ok none => Except.error (mkMessageError "No text returned from Gemini")
  | Except.ok (some t) =>
    if t ≠ "" then parseJson t
    else Except.error (mkMessageError "No text returned from Gemini")

/-- Model of `generateVisualPrompts(userContext, imageBase64)`: builds the request
parts and runs the attempt oracle under `withRetry` with the source
defaults. -/
def generateVisualPrompts (userContext : String) (imageBase64 : Option String)
    (backend : Nat → Except JsError (Option String))
    (parseJson : String → Except JsError VisualPrompts) :
    List RequestPart × RetryOutcome VisualPrompts :=
  (buildParts userContext imageBase64,
   withRetry (fun i => generateVisualPromptsOnce parseJson (backend i)) 3 2000)

/-! ## The orchestration pipeline (application component) -/

/-- Observable backend-facing events of a pipeline run, in order. -/
inductive Event where
  | deriveCall
  | renderCall (key : PlatformKey) (prompt : String) (aspect : AspectRatio) (ref : Option String)
  | renderResult (key : PlatformKey) (ok : Bool)
  | pacingDelay (ms : Nat)
deriving DecidableEq, Repr

/-- Whether an `Except` result is a success, as observed in a trace. -/
def okOf {ε α : Type} : Except ε α → Bool
  | Except.ok _ => true
  | Except.error _ => false

/-- Model of `triggerImageGeneration(key, prompt, aspectRatio, refImage)`: set the
state to `loading` with the prompt, await `generateImage`, then set
`success` with the returned data URI or `error` with the generic
generic failure message.  Returns the new `images` record and the
events of this render. -/
def triggerImageGeneration (images : Images) (key : PlatformKey) (prompt : String)
    (aspectRatio : AspectRatio) (refImage : Option String)
    (backend : Nat → Except JsError (Option (List ResponsePart))) : Images × List Event :=
  let images1 := updateImageState images key (loadingUpdate prompt)
  let gen := generateImage prompt aspectRatio refImage backend
  match gen.2.result with
  | Except.ok base64Image =>
    (updateImageState images1 key (successUpdate base64Image),
     [Event.renderCall key prompt aspectRatio refImage,
      Event.renderResult key true])
  | Except.error _ =>
    (updateImageState images1 key (errorUpdate "Generation failed."),
     [Event.renderCall key prompt aspectRatio refImage,
      Event.renderResult key false])

/-- The `for (const platform of PLATFORMS)` loop of `handleGenerateAll`:
the render of each platform is awaited before the next begins, and a fixed
1500 ms pacing delay follows the completion of each platform. -/
def renderLoop (vp : VisualPrompts) (refImage : Option String)
    (renderBackend : PlatformKey → Nat → Except JsError (Option (List ResponsePart))) :
    List PlatformConfig → Images → Images × List Event
  | [], images => (images, [])
  | p :: rest, images =>
    let step := triggerImageGeneration images p.key (vp.platforms.get p.key)
      p.apiAspectRatio refImage (renderBackend p.key)
    let next := renderLoop vp refImage renderBackend rest step.1
    (next.1, step.2 ++ (Event.pacingDelay 1500 :: next.2))

/-- Step 1 of `handleGenerateAll`:
every platform is reset to idle with errorMsg set to undefined. -/
def resetAll (images : Images) : Images :=
  PLATFORMS.foldl (fun acc p => updateImageState acc p.key resetUpdate) images

/-- The catch branch of `handleGenerateAll`: every platform is marked
`error` with the shared message. -/
def markAllError (msg : String) (images : Images) : Images :=
  PLATFORMS.foldl (fun acc p => updateImageState acc p.key (errorUpdate msg)) images

/-- After prompt derivation succeeds: every platform is set `loading` with
its platform-specific prompt, before any render starts. -/
def markAllLoading (vp : VisualPrompts) (images : Images) : Images :=
  PLATFORMS.foldl
    (fun acc p => updateImageState acc p.key (loadingUpdate (vp.platforms.get p.key))) images

/-- JavaScript `String.prototype.trim()`: strip whitespace from both ends. -/
def jsTrim (s : String) : String :=
  String.mk (((s.toList.dropWhile Char.isWhitespace).reverse.dropWhile
    Char.isWhitespace).reverse)

/-- The guard `if (!userInput.trim() && !selectedImage) return;`:
a blank (all-whitespace) input together with an absent or empty
reference image makes `handleGenerateAll` return immediately. -/
def missingInput (userInput : String) (selectedImage : Option String) : Bool :=
  jsTrim userInput == "" && !(jsTruthyStr selectedImage)

/-- Model of `handleGenerateAll()`: guard, reset, prompt derivation (under retry),
then either the sequential render loop or the global error marking.
Returns the final `images` record and the backend-facing event trace.
The UI flag `isAnalyzing` is not part of the embedded state. -/
def handleGenerateAll (userInput : String) (selectedImage : Option String)
    (deriveBackend : Nat → Except JsError (Option String))
    (parseJson : String → Except JsError VisualPrompts)
    (renderBackend : PlatformKey → Nat → Except JsError (Option (List ResponsePart)))
    (images : Images) : Images × List Event :=
  if missingInput userInput selectedImage then (images, [])
  else
    let images1 := resetAll images
    let derive := generateVisualPrompts userInput (orUndefined selectedImage)
      deriveBackend parseJson
    match derive.2.result with
    | Except.ok visualPrompts =>
      let images2 := markAllLoading visualPrompts images1
      let loop := renderLoop visualPrompts (orUndefined selectedImage) renderBackend
        PLATFORMS images2
      (loop.1, Event.deriveCall :: loop.2)
    | Except.error _ =>
      (markAllError "Failed to analyze context." images1, [Event.deriveCall])

/-- Model of `handleRegenerateSingle(key)`: regenerate one platform from its cached
prompt; a missing (or empty, hence falsy) prompt makes it a no-op. -/
def handleRegenerateSingle (images : Images) (selectedImage : Option String)
    (key : PlatformKey)
    (renderBackend : PlatformKey → Nat → Except JsError (Option (List ResponsePart))) :
    Images × List Event :=
  let currentState := images.get key
  match PLATFORMS.find? (fun p => decide (p.key = key)) with
  | some platformConfig =>
    if jsTruthyStr currentState.prompt then
      match currentState.prompt with
      | some p =>
        triggerImageGeneration images key p platformConfig.apiAspectRatio
          (orUndefined selectedImage) (renderBackend key)
      | none => (images, [])
    else (images, [])
  | none => (images, [])

/-! ## Concrete demonstration environments -/

/-- A rate-limit error carrying `status: 429`. -/
def quotaError429 : JsError :=
  { status := some (JsValue.num 429), code := none, message := none, error := none }

/-- A permanent, non-quota error. -/
def boomError : JsError := mkMessageError "boom"

/-- A fixed prompt set used in concrete runs. -/
def demoVP : VisualPrompts :=
  { visualStyleSeed := "seed",
    platforms := { linkedin := "p1", twitter := "p2", instagram := "p3", blog := "p4" } }

/-- Operation failing with a quota signal twice, then succeeding. -/
def demoQuotaTwiceOp : Nat → Except JsError Nat
  | 0 => Except.error quotaError429
  | 1 => Except.error quotaError429
  | _ => Except.ok 42

/-- Operation that always fails with a non-quota error. -/
def demoBoomOp : Nat → Except JsError Nat := fun _ => Except.error boomError

/-- Derivation backend that always answers with a JSON text. -/
def demoDeriveOk : Nat → Except JsError (Option String) := fun _ => Except.ok (some "json")

/-- Derivation backend that always throws a non-quota error. -/
def demoDeriveFail : Nat → Except JsError (Option String) := fun _ => Except.error boomError

/-- JSON-parse oracle that always yields `demoVP`. -/
def demoParseOk : String → Except JsError VisualPrompts := fun _ => Except.ok demoVP

/-- Render backend that always throws a non-quota error. -/
def demoRenderFail : PlatformKey → Nat → Except JsError (Option (List ResponsePart)) :=
  fun _ _ => Except.error boomError

/-- Render backend that always answers with one inline PNG part. -/
def demoRenderOk : PlatformKey → Nat → Except JsError (Option (List ResponsePart)) :=
  fun _ _ => Except.ok (some [{ inlineData := some { mimeType := "image/png", data := "AAA" } }])

/-- An `images` record left over from a previous successful run on `linkedin`. -/
def staleImages : Images :=
  { initImages with linkedin :=
      { status := Status.success, imageUrl := some "stale-url",
        prompt := some "old", errorMsg := none } }

/-- The `images` record after a full run whose four renders all failed. -/
def afterFailRun : Images :=
  (handleGenerateAll "hello" none demoDeriveOk demoParseOk demoRenderFail initImages).1

/-! ## Helper lemmas -/

theorem updateImageState_get_same (s : Images) (key : PlatformKey) (f : ImageState → ImageState) :
    (updateImageState s key f).get key = f (s.get key) := by
  cases key <;> rfl

theorem updateImageState_get_other (s : Images) (key k : PlatformKey)
    (f : ImageState → ImageState) (h : k ≠ key) :
    (updateImageState s key f).get k = s.get k := by
  cases key <;> cases k <;> simp_all [updateImageState, Images.get]

theorem trigger_fst_get_other (images : Images) (key : PlatformKey) (prompt : String)
    (aspect : AspectRatio) (ref : Option String)
    (backend : Nat → Except JsError (Option (List ResponsePart)))
    (k : PlatformKey) (h : k ≠ key) :
    (triggerImageGeneration images key prompt aspect ref backend).1.get k = images.get k := by
  unfold triggerImageGeneration
  cases hres : (generateImage prompt aspect ref backend).2.result <;>
    simp [hres, updateImageState_get_other _ _ _ _ h]

theorem trigger_snd (images : Images) (key : PlatformKey) (prompt : String)
    (aspect : AspectRatio) (ref : Option String)
    (backend : Nat → Except JsError (Option (List ResponsePart))) :
    (triggerImageGeneration images key prompt aspect ref backend).2 =
      [Event.renderCall key prompt aspect ref,
       Event.renderResult key
         (okOf (generateImage prompt aspect ref backend).2.result)] := by
  unfold triggerImageGeneration
  cases hres : (generateImage prompt aspect ref backend).2.result <;> simp [hres, okOf]

theorem renderLoop_cons_fst (vp : VisualPrompts) (ref : Option String)
    (renderBackend : PlatformKey → Nat → Except JsError (Option (List ResponsePart)))
    (c : PlatformConfig) (rest : List PlatformConfig) (images : Images) :
    (renderLoop vp ref renderBackend (c :: rest) images).1 =
      (renderLoop vp ref renderBackend rest
        (triggerImageGeneration images c.key (vp.platforms.get c.key)
          c.apiAspectRatio ref (renderBackend c.key)).1).1 := by
  simp [renderLoop]

theorem renderLoop_fst_get_notmem (vp : VisualPrompts) (ref : Option String)
    (renderBackend : PlatformKey → Nat → Except JsError (Option (List ResponsePart)))
    (cfgs : List PlatformConfig) (images : Images) (k : PlatformKey)
    (h : ∀ c ∈ cfgs, k ≠ c.key) :
    (renderLoop vp ref renderBackend cfgs images).1.get k = images.get k := by
  induction cfgs generalizing images with
  | nil => rfl
  | cons c rest ih =>
    rw [renderLoop_cons_fst]
    rw [ih _ (fun d hd => h d (List.mem_cons_of_mem _ hd))]
    exact trigger_fst_get_other _ _ _ _ _ _ _ (h c (List.mem_cons_self _ _))

theorem withRetryLoop_result_ok {T : Type} (op : Nat → Except JsError T) (r d : Nat) :
    ∀ fuel i a w le v,
      (withRetryLoop op r d fuel i a w le).result = Except.ok v →
      ∃ j, op j = Except.ok v := by
  intro fuel
  induction fuel with
  | zero =>
    intro i a w le v h
    simp [withRetryLoop] at h
  | succ fuel ih =>
    intro i a w le v h
    rw [withRetryLoop] at h
    cases hop : op i with
    | ok u =>
      rw [hop] at h
      simp at h
      exact ⟨i, by rw [hop, h]⟩
    | error e =>
      simp only [hop] at h
      by_cases hq : (isQuotaError e && decide (i < r - 1)) = true
      · rw [if_pos hq] at h
        exact ih (i + 1) _ _ _ v h
      · rw [if_neg hq] at h
        simp at h

theorem generateImageOnce_ok_ne_empty (resp : Except JsError (Option (List ResponsePart)))
    (s : String) (h : generateImageOnce resp = Except.ok s) : s ≠ "" := by
  unfold generateImageOnce at h
  match resp with
  | Except.error e => simp at h
  | Except.ok none => simp at h
  | Except.ok (some parts) =>
    simp only [] at h
    cases hf : findInlineImage parts with
    | none => rw [hf] at h; simp at h
    | some d =>
      rw [hf] at h
      simp at h
      intro hs
      rw [← h] at hs
      have : ("data:" ++ d.mimeType ++ ";base64," ++ d.data).length = 0 := by
        rw [hs]; rfl
      simp [String.length_append] at this
      exact absurd this.1.1.1 (by decide)

theorem generateImage_ok_ne_empty (prompt : String) (aspect : AspectRatio)
    (ref : Option String) (backend : Nat → Except JsError (Option (List ResponsePart)))
    (u : String) (h : (generateImage prompt aspect ref backend).2.result = Except.ok u) :
    u ≠ "" := by
  unfold generateImage withRetry at h
  obtain ⟨j, hj⟩ := withRetryLoop_result_ok _ 3 2000 3 0 0 [] none u h
  exact generateImageOnce_ok_ne_empty (backend j) u hj

/-! ## Claim theorems -/

/-- C3: an operation that fails with a transient-quota signal on its first
two invocations and succeeds on its third makes `withRetry` (with the
3 attempts of the source) return the success after exactly three attempts,
having waited `initialDelay` before the second attempt and
`initialDelay × 2` before the third, for a total wait of
`initialDelay + initialDelay × 2`. -/
theorem withRetry_quota_twice_then_success {T : Type} (op : Nat → Except JsError T)
    (initialDelay : Nat) (e0 e1 : JsError) (v : T)
    (h0 : op 0 = Except.error e0) (hq0 : isQuotaError e0 = true)
    (h1 : op 1 = Except.error e1) (hq1 : isQuotaError e1 = true)
    (h2 : op 2 = Except.ok v) :
    withRetry op 3 initialDelay =
      ⟨Except.ok v, 3, [initialDelay, initialDelay * 2]⟩ ∧
    (withRetry op 3 initialDelay).waits.sum = initialDelay + initialDelay * 2 := by
  have hrun : withRetry op 3 initialDelay =
      ⟨Except.ok v, 3, [initialDelay, initialDelay * 2]⟩ := by
    unfold withRetry
    simp [withRetryLoop, h0, h1, h2, hq0, hq1, mul_comm]
  exact ⟨hrun, by rw [hrun]; simp⟩

/-- Witness for C3 at a concrete operation: quota errors on attempts 0 and
1, success (42) on attempt 2, with `initialDelay = 2000`. -/
theorem withRetry_quota_twice_then_success_witness :
    withRetry demoQuotaTwiceOp 3 2000 = ⟨Except.ok 42, 3, [2000, 2000 * 2]⟩ ∧
    (withRetry demoQuotaTwiceOp 3 2000).waits.sum = 2000 + 2000 * 2 :=
  withRetry_quota_twice_then_success demoQuotaTwiceOp 2000 quotaError429 quotaError429 42
    rfl (by decide) rfl (by decide) rfl

/-- C4: an operation whose first invocation fails with an error that is not
classified as transient-quota is invoked exactly once by `withRetry`, with
no backoff wait, and the error is propagated, for any positive number of
allowed attempts. -/
theorem withRetry_nonquota_propagates {T : Type} (op : Nat → Except JsError T)
    (retries initialDelay : Nat) (e : JsError)
    (h0 : op 0 = Except.error e) (hq : isQuotaError e = false) (hr : 0 < retries) :
    withRetry op retries initialDelay = ⟨Except.error (some e), 1, []⟩ := by
  unfold withRetry
  cases retries with
  | zero => omega
  | succ k => simp [withRetryLoop, h0, hq]

/-- Witness for C4 at a concrete always-failing non-quota operation. -/
theorem withRetry_nonquota_propagates_witness :
    withRetry demoBoomOp 3 2000 = ⟨Except.error (some boomError), 1, []⟩ :=
  withRetry_nonquota_propagates demoBoomOp 3 2000 boomError rfl (by decide) (by decide)

theorem trigger_fst_get_same_settles (images : Images) (key : PlatformKey) (prompt : String)
    (aspect : AspectRatio) (ref : Option String)
    (backend : Nat → Except JsError (Option (List ResponsePart))) :
    (∃ u, ((triggerImageGeneration images key prompt aspect ref backend).1.get key).status
            = Status.success ∧
          ((triggerImageGeneration images key prompt aspect ref backend).1.get key).imageUrl
            = some u ∧ u ≠ "") ∨
    (((triggerImageGeneration images key prompt aspect ref backend).1.get key).status
        = Status.error ∧
     ((triggerImageGeneration images key prompt aspect ref backend).1.get key).errorMsg
        = some "Generation failed.") := by
  cases hres : (generateImage prompt aspect ref backend).2.result with
  | ok u =>
    left
    refine ⟨u, ?_, ?_, generateImage_ok_ne_empty _ _ _ _ _ hres⟩ <;>
      simp [triggerImageGeneration, hres, updateImageState_get_same, successUpdate,
        loadingUpdate]
  | error e =>
    right
    constructor <;>
      simp [triggerImageGeneration, hres, updateImageState_get_same, errorUpdate,
        loadingUpdate]

theorem renderLoop_settles (vp : VisualPrompts) (ref : Option String)
    (renderBackend : PlatformKey → Nat → Except JsError (Option (List ResponsePart)))
    (cfgs : List PlatformConfig) (images : Images) (key : PlatformKey)
    (hmem : key ∈ cfgs.map PlatformConfig.key) :
    (∃ u, ((renderLoop vp ref renderBackend cfgs images).1.get key).status = Status.success ∧
          ((renderLoop vp ref renderBackend cfgs images).1.get key).imageUrl = some u ∧
          u ≠ "") ∨
    (((renderLoop vp ref renderBackend cfgs images).1.get key).status = Status.error ∧
     ((renderLoop vp ref renderBackend cfgs images).1.get key).errorMsg
        = some "Generation failed.") := by
  induction cfgs generalizing images with
  | nil => simp at hmem
  | cons c rest ih =>
    by_cases hk : key ∈ rest.map PlatformConfig.key
    · rw [renderLoop_cons_fst]
      exact ih _ hk
    · have hkc : key = c.key := by
        rcases List.mem_map.mp hmem with ⟨d, hd, hdk⟩
        rcases List.mem_cons.mp hd with rfl | hdrest
        · exact hdk.symm
        · exact absurd (hdk ▸ List.mem_map_of_mem PlatformConfig.key hdrest) hk
      have hfr : ∀ d ∈ rest, key ≠ d.key := by
        intro d hd hcontra
        exact hk (hcontra ▸ List.mem_map_of_mem PlatformConfig.key hd)
      rw [renderLoop_cons_fst,
        renderLoop_fst_get_notmem vp ref renderBackend rest _ key hfr]
      subst hkc
      exact trigger_fst_get_same_settles images c.key (vp.platforms.get c.key)
        c.apiAspectRatio ref (renderBackend c.key)

/-- C1: in a run of `handleGenerateAll` that starts (the input guard passes)
and whose prompt derivation succeeds, every one of the four platform states
settles as `success` with a non-empty `imageUrl` or `error` with a
non-empty `errorMsg`; no platform remains `loading` or `idle`. -/
theorem handleGenerateAll_all_settle (userInput : String) (selectedImage : Option String)
    (deriveBackend : Nat → Except JsError (Option String))
    (parseJson : String → Except JsError VisualPrompts)
    (renderBackend : PlatformKey → Nat → Except JsError (Option (List ResponsePart)))
    (images : Images) (vp : VisualPrompts)
    (hguard : missingInput userInput selectedImage = false)
    (hderive : (generateVisualPrompts userInput (orUndefined selectedImage)
        deriveBackend parseJson).2.result = Except.ok vp)
    (key : PlatformKey) :
    (∃ u, ((handleGenerateAll userInput selectedImage deriveBackend parseJson
              renderBackend images).1.get key).status = Status.success ∧
          ((handleGenerateAll userInput selectedImage deriveBackend parseJson
              renderBackend images).1.get key).imageUrl = some u ∧ u ≠ "") ∨
    (∃ m, ((handleGenerateAll userInput selectedImage deriveBackend parseJson
              renderBackend images).1.get key).status = Status.error ∧
          ((handleGenerateAll userInput selectedImage deriveBackend parseJson
              renderBackend images).1.get key).errorMsg = some m ∧ m ≠ "") := by
  have hG : (handleGenerateAll userInput selectedImage deriveBackend parseJson
      renderBackend images).1 =
      (renderLoop vp (orUndefined selectedImage) renderBackend PLATFORMS
        (markAllLoading vp (resetAll images))).1 := by
    unfold handleGenerateAll
    simp only [hguard, Bool.false_eq_true, if_false, hderive]
  rw [hG]
  have hmem : key ∈ PLATFORMS.map PlatformConfig.key := by
    cases key <;> simp [PLATFORMS]
  rcases renderLoop_settles vp (orUndefined selectedImage) renderBackend PLATFORMS
      (markAllLoading vp (resetAll images)) key hmem with ⟨u, h1, h2, h3⟩ | ⟨h1, h2⟩
  · exact Or.inl ⟨u, h1, h2, h3⟩
  · exact Or.inr ⟨"Generation failed.", h1, h2, by decide⟩

theorem renderLoop_cons_snd (vp : VisualPrompts) (ref : Option String)
    (renderBackend : PlatformKey → Nat → Except JsError (Option (List ResponsePart)))
    (c : PlatformConfig) (rest : List PlatformConfig) (images : Images) :
    (renderLoop vp ref renderBackend (c :: rest) images).2 =
      (triggerImageGeneration images c.key (vp.platforms.get c.key)
        c.apiAspectRatio ref (renderBackend c.key)).2 ++
      Event.pacingDelay 1500 ::
      (renderLoop vp ref renderBackend rest
        (triggerImageGeneration images c.key (vp.platforms.get c.key)
          c.apiAspectRatio ref (renderBackend c.key)).1).2 := by
  simp [renderLoop]

/-- C2: in a run of `handleGenerateAll` whose prompt derivation succeeds,
the backend-facing trace is exactly: the derivation call, then — in the
fixed `PLATFORMS` order linkedin, twitter, instagram, blog — each
render call of each platform immediately followed by its observed
result and a 1500 ms pacing delay, before the render call of the next platform
is issued. -/
theorem handleGenerateAll_trace (userInput : String) (selectedImage : Option String)
    (deriveBackend : Nat → Except JsError (Option String))
    (parseJson : String → Except JsError VisualPrompts)
    (renderBackend : PlatformKey → Nat → Except JsError (Option (List ResponsePart)))
    (images : Images) (vp : VisualPrompts)
    (hguard : missingInput userInput selectedImage = false)
    (hderive : (generateVisualPrompts userInput (orUndefined selectedImage)
        deriveBackend parseJson).2.result = Except.ok vp) :
    (handleGenerateAll userInput selectedImage deriveBackend parseJson
        renderBackend images).2 =
      [Event.deriveCall,
       Event.renderCall PlatformKey.linkedin vp.platforms.linkedin AspectRatio.r16x9
         (orUndefined selectedImage),
       Event.renderResult PlatformKey.linkedin
         (okOf (generateImage vp.platforms.linkedin AspectRatio.r16x9
           (orUndefined selectedImage) (renderBackend PlatformKey.linkedin)).2.result),
       Event.pacingDelay 1500,
       Event.renderCall PlatformKey.twitter vp.platforms.twitter AspectRatio.r16x9
         (orUndefined selectedImage),
       Event.renderResult PlatformKey.twitter
         (okOf (generateImage vp.platforms.twitter AspectRatio.r16x9
           (orUndefined selectedImage) (renderBackend PlatformKey.twitter)).2.result),
       Event.pacingDelay 1500,
       Event.renderCall PlatformKey.instagram vp.platforms.instagram AspectRatio.r1x1
         (orUndefined selectedImage),
       Event.renderResult PlatformKey.instagram
         (okOf (generateImage vp.platforms.instagram AspectRatio.r1x1
           (orUndefined selectedImage) (renderBackend PlatformKey.instagram)).2.result),
       Event.pacingDelay 1500,
       Event.renderCall PlatformKey.blog vp.platforms.blog AspectRatio.r16x9
         (orUndefined selectedImage),
       Event.renderResult PlatformKey.blog
         (okOf (generateImage vp.platforms.blog AspectRatio.r16x9
           (orUndefined selectedImage) (renderBackend PlatformKey.blog)).2.result),
       Event.pacingDelay 1500] := by
  unfold handleGenerateAll
  simp only [hguard, Bool.false_eq_true, if_false, hderive]
  simp [PLATFORMS, renderLoop_cons_snd, renderLoop, trigger_snd, PlatformPromptMap.get]

/-- Witness for C2 at a concrete run (non-quota render failures). -/
theorem handleGenerateAll_trace_witness :
    (handleGenerateAll "hello" none demoDeriveOk demoParseOk demoRenderFail initImages).2 =
      [Event.deriveCall,
       Event.renderCall PlatformKey.linkedin demoVP.platforms.linkedin AspectRatio.r16x9
         (orUndefined none),
       Event.renderResult PlatformKey.linkedin
         (okOf (generateImage demoVP.platforms.linkedin AspectRatio.r16x9
           (orUndefined none) (demoRenderFail PlatformKey.linkedin)).2.result),
       Event.pacingDelay 1500,
       Event.renderCall PlatformKey.twitter demoVP.platforms.twitter AspectRatio.r16x9
         (orUndefined none),
       Event.renderResult PlatformKey.twitter
         (okOf (generateImage demoVP.platforms.twitter AspectRatio.r16x9
           (orUndefined none) (demoRenderFail PlatformKey.twitter)).2.result),
       Event.pacingDelay 1500,
       Event.renderCall PlatformKey.instagram demoVP.platforms.instagram AspectRatio.r1x1
         (orUndefined none),
       Event.renderResult PlatformKey.instagram
         (okOf (generateImage demoVP.platforms.instagram AspectRatio.r1x1
           (orUndefined none) (demoRenderFail PlatformKey.instagram)).2.result),
       Event.pacingDelay 1500,
       Event.renderCall PlatformKey.blog demoVP.platforms.blog AspectRatio.r16x9
         (orUndefined none),
       Event.renderResult PlatformKey.blog
         (okOf (generateImage demoVP.platforms.blog AspectRatio.r16x9
           (orUndefined none) (demoRenderFail PlatformKey.blog)).2.result),
       Event.pacingDelay 1500] :=
  handleGenerateAll_trace "hello" none demoDeriveOk demoParseOk demoRenderFail
    initImages demoVP (by decide) rfl

/-- Witness for C1 at a concrete run: with a successful derivation and a
render backend that always returns an inline image, the linkedin state
settles. -/
theorem handleGenerateAll_all_settle_witness :
    (∃ u, ((handleGenerateAll "hello" none demoDeriveOk demoParseOk demoRenderOk
              initImages).1.get PlatformKey.linkedin).status = Status.success ∧
          ((handleGenerateAll "hello" none demoDeriveOk demoParseOk demoRenderOk
              initImages).1.get PlatformKey.linkedin).imageUrl = some u ∧ u ≠ "") ∨
    (∃ m, ((handleGenerateAll "hello" none demoDeriveOk demoParseOk demoRenderOk
              initImages).1.get PlatformKey.linkedin).status = Status.error ∧
          ((handleGenerateAll "hello" none demoDeriveOk demoParseOk demoRenderOk
              initImages).1.get PlatformKey.linkedin).errorMsg = some m ∧ m ≠ "") :=
  handleGenerateAll_all_settle "hello" none demoDeriveOk demoParseOk demoRenderOk
    initImages demoVP (by decide) rfl PlatformKey.linkedin

/-- C5: in a run of `handleGenerateAll` that starts but whose prompt
derivation fails (after its retries), every platform state ends `error`
with the shared analysis-failure message, and the trace is
just the derivation call — zero render calls are made. -/
theorem handleGenerateAll_deriveFail_marks_all (userInput : String)
    (selectedImage : Option String)
    (deriveBackend : Nat → Except JsError (Option String))
    (parseJson : String → Except JsError VisualPrompts)
    (renderBackend : PlatformKey → Nat → Except JsError (Option (List ResponsePart)))
    (images : Images) (e : Option JsError)
    (hguard : missingInput userInput selectedImage = false)
    (hderive : (generateVisualPrompts userInput (orUndefined selectedImage)
        deriveBackend parseJson).2.result = Except.error e) :
    (∀ key,
      ((handleGenerateAll userInput selectedImage deriveBackend parseJson
          renderBackend images).1.get key).status = Status.error ∧
      ((handleGenerateAll userInput selectedImage deriveBackend parseJson
          renderBackend images).1.get key).errorMsg
        = some "Failed to analyze context.") ∧
    (handleGenerateAll userInput selectedImage deriveBackend parseJson
        renderBackend images).2 = [Event.deriveCall] := by
  have hG : handleGenerateAll userInput selectedImage deriveBackend parseJson
      renderBackend images =
      (markAllError "Failed to analyze context." (resetAll images),
       [Event.deriveCall]) := by
    unfold handleGenerateAll
    simp only [hguard, Bool.false_eq_true, if_false, hderive]
  rw [hG]
  refine ⟨fun key => ?_, rfl⟩
  cases key <;>
    simp [markAllError, resetAll, PLATFORMS, updateImageState, Images.get,
      errorUpdate, resetUpdate]

/-- Witness for C5 at a concrete run whose derivation always throws a
non-quota error. -/
theorem handleGenerateAll_deriveFail_marks_all_witness :
    (∀ key,
      ((handleGenerateAll "hello" none demoDeriveFail demoParseOk
          demoRenderFail initImages).1.get key).status = Status.error ∧
      ((handleGenerateAll "hello" none demoDeriveFail demoParseOk
          demoRenderFail initImages).1.get key).errorMsg
        = some "Failed to analyze context.") ∧
    (handleGenerateAll "hello" none demoDeriveFail demoParseOk
        demoRenderFail initImages).2 = [Event.deriveCall] :=
  handleGenerateAll_deriveFail_marks_all "hello" none demoDeriveFail demoParseOk
    demoRenderFail initImages (some boomError) (by decide) rfl

/-- C6 counterexample: `handleGenerateAll` resets `status` and `errorMsg`
before the derivation call, but does NOT clear `imageUrl`: starting from a
state whose linkedin record still holds `imageUrl = "stale-url"`, the state
just before the derivation call (namely `resetAll staleImages`) still holds
the stale `imageUrl`, and a full run whose derivation fails ends with the
stale `imageUrl` still present. -/
theorem resetAll_keeps_imageUrl_cex :
    (resetAll staleImages).linkedin.imageUrl = some "stale-url" ∧
    (handleGenerateAll "hello" none demoDeriveFail demoParseOk demoRenderFail
        staleImages).1.linkedin.imageUrl = some "stale-url" := by
  constructor <;> rfl

/-- C6 amended: before any backend call, `handleGenerateAll` resets every
platform state to `status = idle` with `errorMsg` cleared, while `imageUrl`
and `prompt` are left unchanged (the reset is `resetAll`, applied before
the derivation call). -/
theorem resetAll_clears_status_and_errorMsg (images : Images) (key : PlatformKey) :
    ((resetAll images).get key).status = Status.idle ∧
    ((resetAll images).get key).errorMsg = none ∧
    ((resetAll images).get key).imageUrl = (images.get key).imageUrl ∧
    ((resetAll images).get key).prompt = (images.get key).prompt := by
  cases key <;>
    simp [resetAll, PLATFORMS, updateImageState, Images.get, resetUpdate]

/-- C7 counterexample: a reachable `success` state with `errorMsg` still
set.  Starting from the initial all-idle state, run `handleGenerateAll`
(derivation succeeds, every render fails), then regenerate linkedin with a
succeeding backend: the success update (status success plus imageUrl)
does not clear the stale `errorMsg`, so the resulting linkedin state has
`status = success` together with the stale render-failure errorMsg. -/
theorem success_with_stale_errorMsg_cex :
    (handleRegenerateSingle afterFailRun none PlatformKey.linkedin
        demoRenderOk).1.linkedin.status = Status.success ∧
    (handleRegenerateSingle afterFailRun none PlatformKey.linkedin
        demoRenderOk).1.linkedin.imageUrl = some "data:image/png;base64,AAA" ∧
    (handleRegenerateSingle afterFailRun none PlatformKey.linkedin
        demoRenderOk).1.linkedin.errorMsg = some "Generation failed." := by
  refine ⟨rfl, rfl, rfl⟩

/-- The part of the specified AssetState invariant that the code does maintain:
`success` implies `imageUrl` is set, `error` implies `errorMsg` is set. -/
def stateInv (st : ImageState) : Prop :=
  (st.status = Status.success → st.imageUrl ≠ none) ∧
  (st.status = Status.error → st.errorMsg ≠ none)

/-- C7 amended: every state update the pipeline performs (the reset,
loading, success and error partial updates, applied to any prior state)
yields a state satisfying `stateInv`; the error update leaves `imageUrl`
unchanged (stale-but-visible); the initial states satisfy the invariant.
The further specified conjunct that success implies errorMsg absent is
NOT maintained (see the counterexample): the success update does not clear
a stale `errorMsg`. -/
theorem pipeline_updates_preserve_stateInv (st : ImageState) (p u m : String) :
    stateInv (resetUpdate st) ∧
    stateInv (loadingUpdate p st) ∧
    stateInv (successUpdate u st) ∧
    stateInv (errorUpdate m st) ∧
    (errorUpdate m st).imageUrl = st.imageUrl ∧
    (∀ key, stateInv (initImages.get key)) := by
  refine ⟨⟨?_, ?_⟩, ⟨?_, ?_⟩, ⟨?_, ?_⟩, ⟨?_, ?_⟩, rfl, fun key => ?_⟩ <;>
    first
      | (intro h; simp [resetUpdate, loadingUpdate, successUpdate, errorUpdate] at h ⊢)
      | (cases key <;> exact ⟨fun h => by simp [initImages, Images.get] at h,
          fun h => by simp [initImages, Images.get] at h⟩)

/-- C8: when the user context trims to empty and no reference image is
present, `handleGenerateAll` is a no-op: the `images` record is unchanged
and the trace is empty (no backend call, no error state). -/
theorem handleGenerateAll_noop_on_missing_input (userInput : String)
    (selectedImage : Option String)
    (deriveBackend : Nat → Except JsError (Option String))
    (parseJson : String → Except JsError VisualPrompts)
    (renderBackend : PlatformKey → Nat → Except JsError (Option (List ResponsePart)))
    (images : Images)
    (h1 : jsTrim userInput = "") (h2 : selectedImage = none) :
    handleGenerateAll userInput selectedImage deriveBackend parseJson
      renderBackend images = (images, []) := by
  subst h2
  unfold handleGenerateAll
  simp [missingInput, h1, jsTruthyStr]

/-- Witness for C8 at the empty input with no reference image. -/
theorem handleGenerateAll_noop_on_missing_input_witness :
    handleGenerateAll "" none demoDeriveOk demoParseOk demoRenderFail initImages
      = (initImages, []) :=
  handleGenerateAll_noop_on_missing_input "" none demoDeriveOk demoParseOk
    demoRenderFail initImages rfl rfl

/-- The `apiAspectRatio` that the `PLATFORMS` table configures for a key. -/
def apiAspectRatioOf : PlatformKey → AspectRatio
  | PlatformKey.instagram => AspectRatio.r1x1
  | _ => AspectRatio.r16x9

/-- C9: `handleRegenerateSingle(key)` is a no-op (no state change, no
backend call) when the cached prompt of the platform is absent or empty; with a
non-empty cached prompt it performs exactly one render for that platform,
with the cached prompt and the configured aspect ratio of the platform, leaving
the state of every other platform unchanged. -/
theorem handleRegenerateSingle_spec (images : Images) (selectedImage : Option String)
    (key : PlatformKey)
    (renderBackend : PlatformKey → Nat → Except JsError (Option (List ResponsePart))) :
    (jsTruthyStr (images.get key).prompt = false →
      handleRegenerateSingle images selectedImage key renderBackend = (images, [])) ∧
    (∀ p, (images.get key).prompt = some p → p ≠ "" →
      handleRegenerateSingle images selectedImage key renderBackend =
        triggerImageGeneration images key p (apiAspectRatioOf key)
          (orUndefined selectedImage) (renderBackend key) ∧
      (∀ k, k ≠ key →
        (handleRegenerateSingle images selectedImage key renderBackend).1.get k
          = images.get k) ∧
      (handleRegenerateSingle images selectedImage key renderBackend).2 =
        [Event.renderCall key p (apiAspectRatioOf key) (orUndefined selectedImage),
         Event.renderResult key (okOf (generateImage p (apiAspectRatioOf key)
           (orUndefined selectedImage) (renderBackend key)).2.result)]) := by
  refine ⟨fun hfalsy => ?_, fun p hp hpne => ?_⟩
  · unfold handleRegenerateSingle
    cases key <;> simp [PLATFORMS, hfalsy]
  · have htrue : jsTruthyStr (images.get key).prompt = true := by
      rw [hp]; simp [jsTruthyStr, hpne]
    have hstep : handleRegenerateSingle images selectedImage key renderBackend =
        triggerImageGeneration images key p (apiAspectRatioOf key)
          (orUndefined selectedImage) (renderBackend key) := by
      unfold handleRegenerateSingle
      cases key <;> simp [PLATFORMS, htrue, hp, apiAspectRatioOf, jsTruthyStr, hpne]
    refine ⟨hstep, fun k hk => ?_, ?_⟩
    · rw [hstep]; exact trigger_fst_get_other _ _ _ _ _ _ _ hk
    · rw [hstep]; exact trigger_snd _ _ _ _ _ _

/-- An `images` record whose linkedin platform holds a cached prompt. -/
def promptedImages : Images :=
  { initImages with linkedin :=
      { status := Status.error, imageUrl := none,
        prompt := some "p1", errorMsg := some "Generation failed." } }

/-- Witness for C9: the no-prompt branch at the initial state is a no-op,
and the cached-prompt branch at a concrete state issues exactly the single
render for linkedin. -/
theorem handleRegenerateSingle_spec_witness :
    handleRegenerateSingle initImages none PlatformKey.linkedin demoRenderOk
        = (initImages, []) ∧
    (handleRegenerateSingle promptedImages none PlatformKey.linkedin demoRenderOk).2 =
      [Event.renderCall PlatformKey.linkedin "p1"
         (apiAspectRatioOf PlatformKey.linkedin) (orUndefined none),
       Event.renderResult PlatformKey.linkedin
         (okOf (generateImage "p1" (apiAspectRatioOf PlatformKey.linkedin)
           (orUndefined none) (demoRenderOk PlatformKey.linkedin)).2.result)] :=
  ⟨(handleRegenerateSingle_spec initImages none PlatformKey.linkedin demoRenderOk).1 rfl,
   ((handleRegenerateSingle_spec promptedImages none PlatformKey.linkedin
       demoRenderOk).2 "p1" rfl (by decide)).2.2⟩

/-- C10: when the reference-image string does not match the
`data:<mime>;base64,<data>` pattern (`parseBase64` returns `none`), both
adapter operations still issue their backend request with only the text
part — the malformed reference image is silently omitted — and the
outcome is exactly the outcome with no reference image at all: no error is
raised because of the malformed string. -/
theorem malformed_reference_dropped (t prompt r : String) (aspect : AspectRatio)
    (deriveBackend : Nat → Except JsError (Option String))
    (parseJson : String → Except JsError VisualPrompts)
    (renderBackend : Nat → Except JsError (Option (List ResponsePart)))
    (h : parseBase64 r = none) :
    (generateVisualPrompts t (some r) deriveBackend parseJson).1
        = [RequestPart.text t] ∧
    (generateImage prompt aspect (some r) renderBackend).1.parts
        = [RequestPart.text prompt] ∧
    (generateVisualPrompts t (some r) deriveBackend parseJson)
        = (generateVisualPrompts t none deriveBackend parseJson) ∧
    (generateImage prompt aspect (some r) renderBackend)
        = (generateImage prompt aspect none renderBackend) := by
  have hb : ∀ txt, buildParts txt (some r) = [RequestPart.text txt] := by
    intro txt
    show (if r ≠ "" then
        match parseBase64 r with
        | some (m, d) => [RequestPart.text txt, RequestPart.inlineData m d]
        | none => [RequestPart.text txt]
      else [RequestPart.text txt]) = [RequestPart.text txt]
    by_cases hr : r = ""
    · simp [hr]
    · rw [if_pos hr, h]
  refine ⟨hb t, hb prompt, ?_, ?_⟩ <;>
    simp [generateVisualPrompts, generateImage, hb, buildParts, h]

/-- Witness for C10 at a concrete malformed reference string. -/
theorem malformed_reference_dropped_witness :
    (generateVisualPrompts "ctx" (some "not-a-data-uri") demoDeriveOk demoParseOk).1
        = [RequestPart.text "ctx"] ∧
    (generateImage "p1" AspectRatio.r16x9 (some "not-a-data-uri")
        (demoRenderOk PlatformKey.linkedin)).1.parts = [RequestPart.text "p1"] ∧
    (generateVisualPrompts "ctx" (some "not-a-data-uri") demoDeriveOk demoParseOk)
        = (generateVisualPrompts "ctx" none demoDeriveOk demoParseOk) ∧
    (generateImage "p1" AspectRatio.r16x9 (some "not-a-data-uri")
        (demoRenderOk PlatformKey.linkedin))
        = (generateImage "p1" AspectRatio.r16x9 none
            (demoRenderOk PlatformKey.linkedin)) :=
  malformed_reference_dropped "ctx" "p1" "not-a-data-uri" AspectRatio.r16x9
    demoDeriveOk demoParseOk (demoRenderOk PlatformKey.linkedin) (by decide)
